import Mathlib

/-!
Shallow embedding of the `Animal` aggregate of the animal_records repository
(`src/domain/animal/entities/animal.py`), together with the value objects and
merge helper it uses.  Python's mutating methods become functions from an
`Animal` to an `Except` value; a `raise` is translated to `Except.error`
carrying both the domain error and the aggregate state at the moment of the
raise, so that atomicity of the operations is a provable property rather than
an artifact of the embedding.  `datetime.utcnow()` is modelled by an explicit
`now : Nat` argument.
-/

namespace AnimalRecords

/-- `Gender` value object (referenced by `animal.py`; values are inert here). -/
inductive Gender where
  | MALE
  | FEMALE
  | OTHER
deriving DecidableEq, Repr

/-- `LifeStatus` value object from `src/domain/animal/value_objects/life_status.py`. -/
inductive LifeStatus where
  | ALIVE
  | DEAD
deriving DecidableEq, Repr

/-- Modelled from the spec: `VisitedLocation` ("identity `id`; referenced
location-point id; visit timestamp").  The entity file
`animal_visited_location.py` is not under `src/`; a freshly created entry has
no id yet (`id = none`), persistence would assign one. -/
structure AnimalVisitedLocation where
  id : Option Int
  location_point_id : Int
  datetime_of_visit : Nat
deriving DecidableEq, Repr

instance : Inhabited AnimalVisitedLocation := ⟨⟨none, 0, 0⟩⟩

/-- Modelled from the spec: `AnimalVisitedLocation.create(location_point_id,
datetime_of_visit)` as called by `Animal.add_visited_location`. -/
def AnimalVisitedLocation.create (location_point_id : Int) (datetime_of_visit : Nat) :
    AnimalVisitedLocation :=
  { id := none, location_point_id := location_point_id, datetime_of_visit := datetime_of_visit }

/-- Modelled from the spec: `TypeTag` "wraps a type id; equality by type id".
The entity file `type_of_specific_animal.py` is not under `src/`. -/
structure TypeOfSpecificAnimal where
  animal_type_id : Int
deriving DecidableEq, Repr

instance : Inhabited TypeOfSpecificAnimal := ⟨⟨0⟩⟩

/-- Modelled from the spec: `TypeOfSpecificAnimal.create(animal_type_id)`. -/
def TypeOfSpecificAnimal.create (animal_type_id : Int) : TypeOfSpecificAnimal :=
  { animal_type_id := animal_type_id }

/-- Domain errors raised by the aggregate (`src/domain/animal/exceptions/`),
each carrying the animal id and the relevant secondary id, as in the source. -/
inductive AnimalError where
  | animalIsDead (animal_id : Int)
  | locationPointEqualToChippingLocation (animal_id location_point_id : Int)
  | animalNowInThisPoint (animal_id location_point_id : Int)
  | animalHasNoCurrentVisitedLocation (animal_id visited_location_id : Int)
  | nextOfPreviousEqualThisLocation (animal_id location_point_id : Int)
  | updateToSameLocationPoint (animal_id location_point_id : Int)
  | updatedFirstPointToChippingPoint (animal_id location_point_id : Int)
  | animalAlreadyHaveThisType (animal_id type_id : Int)
  | animalNotHaveThisType (animal_id type_id : Int)
  | animalOnlyHasThisType (animal_id type_id : Int)
  | animalAlreadyHaveThisTypes (animal_id old_type new_type : Int)
deriving DecidableEq, Repr

/-- The `Animal` aggregate state (`animal.py`, lines 27-40).  `weight`,
`length`, `height` are inert payload here (no arithmetic is performed on
them). -/
structure Animal where
  id : Int
  animal_types : List TypeOfSpecificAnimal
  weight : Int
  length : Int
  height : Int
  gender : Gender
  life_status : LifeStatus
  chipping_datetime : Nat
  chipping_location_id : Int
  chipper_id : Int
  visited_locations : List AnimalVisitedLocation
  death_datetime : Option Nat
deriving DecidableEq, Repr

/-- The patch accepted by `Animal.update` (`animal.py`, lines 63-73): one
optional field per mutable attribute; `none` models `Empty.UNSET`. -/
structure AnimalPatch where
  weight : Option Int := none
  length : Option Int := none
  height : Option Int := none
  gender : Option Gender := none
  life_status : Option LifeStatus := none
  chipper_id : Option Int := none
  chipping_location_id : Option Int := none
  animal_types : Option (List TypeOfSpecificAnimal) := none
  visited_locations : Option (List AnimalVisitedLocation) := none

/-- `Animal.update` (`animal.py`, lines 63-78).  Modelled from the spec:
`data_filter` and `EntityMerge._merge` live outside `src/`; per the spec the
merge "applies only the fields explicitly supplied (unset fields left
unchanged)", and for the two list-valued fields supplied entries are appended
(the spec states `addType` "appends" and `addVisitedLocation` "appends a new
VisitedLocation", both implemented through this merge). -/
def Animal.update (a : Animal) (p : AnimalPatch) : Animal :=
  { a with
    weight := p.weight.getD a.weight
    length := p.length.getD a.length
    height := p.height.getD a.height
    gender := p.gender.getD a.gender
    life_status := p.life_status.getD a.life_status
    chipper_id := p.chipper_id.getD a.chipper_id
    chipping_location_id := p.chipping_location_id.getD a.chipping_location_id
    animal_types := a.animal_types ++ (p.animal_types.getD [])
    visited_locations := a.visited_locations ++ (p.visited_locations.getD []) }

/-- `Animal.create` (`animal.py`, lines 42-61): a `None`/empty supplied
visited-location list becomes the empty list. -/
def Animal.create (animal_types : List TypeOfSpecificAnimal)
    (weight length height : Int) (gender : Gender)
    (chipping_location_id chipper_id : Int)
    (life_status : Option LifeStatus) (chipping_datetime : Option Nat)
    (animal_id : Option Int)
    (visited_locations : Option (List AnimalVisitedLocation))
    (death_datetime : Option Nat) : Animal :=
  { id := animal_id.getD 0
    animal_types := animal_types
    weight := weight
    length := length
    height := height
    gender := gender
    life_status := life_status.getD LifeStatus.ALIVE
    chipping_datetime := chipping_datetime.getD 0
    chipping_location_id := chipping_location_id
    chipper_id := chipper_id
    visited_locations := visited_locations.getD []
    death_datetime := death_datetime }

/-- `Animal.set_death_datetime` (`animal.py`, lines 80-82). -/
def Animal.set_death_datetime (a : Animal) (now : Nat) : Animal :=
  if a.life_status = LifeStatus.DEAD then { a with death_datetime := some now } else a

/-- `Animal._check_exist_animal_type` (`animal.py`, lines 170-174). -/
def Animal.check_exist_animal_type (a : Animal) (animal_type_id : Int) : Bool :=
  a.animal_types.any (fun t => t.animal_type_id == animal_type_id)

/-- `Animal._get_animal_type` (`animal.py`, lines 176-180): first tag with the
given type id, or `AnimalNotHaveThisType`. -/
def Animal.get_animal_type (a : Animal) (animal_type_id : Int) :
    Except AnimalError TypeOfSpecificAnimal :=
  match a.animal_types.find? (fun t => t.animal_type_id == animal_type_id) with
  | some t => Except.ok t
  | none => Except.error (AnimalError.animalNotHaveThisType a.id animal_type_id)

/-- `Animal._get_visited_location` (`animal.py`, lines 163-168): first entry
with the given id, or `AnimalHasNoCurrentVisitedLocation`. -/
def Animal.get_visited_location (a : Animal) (visited_location_id : Int) :
    Except AnimalError AnimalVisitedLocation :=
  match a.visited_locations.find? (fun l => l.id == some visited_location_id) with
  | some l => Except.ok l
  | none => Except.error (AnimalError.animalHasNoCurrentVisitedLocation a.id visited_location_id)

/-- `Animal.add_animal_type` (`animal.py`, lines 89-93). -/
def Animal.add_animal_type (a : Animal) (type_id : Int) :
    Except (AnimalError × Animal) Animal :=
  let type_of_this_animal := TypeOfSpecificAnimal.create type_id
  if type_of_this_animal ∈ a.animal_types then
    Except.error (AnimalError.animalAlreadyHaveThisType a.id type_of_this_animal.animal_type_id, a)
  else
    Except.ok (a.update { animal_types := some [type_of_this_animal] })

/-- `Animal.add_visited_location` (`animal.py`, lines 95-106). -/
def Animal.add_visited_location (a : Animal) (location_point_id : Int) (now : Nat) :
    Except (AnimalError × Animal) Animal :=
  if a.life_status = LifeStatus.DEAD then
    Except.error (AnimalError.animalIsDead a.id, a)
  else if a.chipping_location_id = location_point_id then
    Except.error (AnimalError.locationPointEqualToChippingLocation a.id location_point_id, a)
  else if a.visited_locations ≠ [] ∧
      (a.visited_locations.getLastD default).location_point_id = location_point_id then
    Except.error (AnimalError.animalNowInThisPoint a.id location_point_id, a)
  else
    Except.ok (a.update
      { visited_locations := some [AnimalVisitedLocation.create location_point_id now] })

/-- `Animal.change_animal_type` (`animal.py`, lines 108-119). -/
def Animal.change_animal_type (a : Animal) (old_type_int new_type_id : Int) :
    Except (AnimalError × Animal) Animal :=
  let exist_old_type := a.check_exist_animal_type old_type_int
  let exist_new_type := a.check_exist_animal_type new_type_id
  if exist_old_type ∧ exist_new_type then
    Except.error (AnimalError.animalAlreadyHaveThisTypes a.id old_type_int new_type_id, a)
  else if exist_new_type then
    Except.error (AnimalError.animalAlreadyHaveThisType a.id new_type_id, a)
  else
    match a.get_animal_type old_type_int with
    | Except.error e => Except.error (e, a)
    | Except.ok animal_type =>
      let index_animal_type := a.animal_types.indexOf animal_type
      Except.ok { a with
        animal_types := a.animal_types.set index_animal_type
          { a.animal_types.getD index_animal_type default with animal_type_id := new_type_id } }

/-- `Animal.change_visited_location` (`animal.py`, lines 121-141). -/
def Animal.change_visited_location (a : Animal)
    (visited_location_id new_location_point_id : Int) :
    Except (AnimalError × Animal) (Animal × AnimalVisitedLocation) :=
  match a.get_visited_location visited_location_id with
  | Except.error e => Except.error (e, a)
  | Except.ok visited_location =>
    let location_index := a.visited_locations.indexOf visited_location
    if visited_location.location_point_id = new_location_point_id then
      Except.error
        (AnimalError.updateToSameLocationPoint a.id visited_location.location_point_id, a)
    else if location_index ≠ 0 ∧ location_index ≠ a.visited_locations.length - 1 then
      let next_element := a.visited_locations.getD (location_index + 1) default
      let previous_element := a.visited_locations.getD (location_index - 1) default
      if next_element.location_point_id = new_location_point_id then
        Except.error
          (AnimalError.nextOfPreviousEqualThisLocation a.id visited_location.location_point_id, a)
      else if previous_element.location_point_id = new_location_point_id then
        Except.error
          (AnimalError.nextOfPreviousEqualThisLocation a.id visited_location.location_point_id, a)
      else
        let updated := { a.visited_locations.getD location_index default with
          location_point_id := new_location_point_id }
        Except.ok ({ a with visited_locations := a.visited_locations.set location_index updated },
          updated)
    else if location_index = 0 ∧ new_location_point_id = a.chipping_location_id then
      Except.error
        (AnimalError.updatedFirstPointToChippingPoint a.id visited_location.location_point_id, a)
    else
      let updated := { a.visited_locations.getD location_index default with
        location_point_id := new_location_point_id }
      Except.ok ({ a with visited_locations := a.visited_locations.set location_index updated },
        updated)

/-- `Animal.delete_visited_location` (`animal.py`, lines 143-153). -/
def Animal.delete_visited_location (a : Animal) (visited_location_id : Int) :
    Except (AnimalError × Animal) Animal :=
  match a.get_visited_location visited_location_id with
  | Except.error e => Except.error (e, a)
  | Except.ok visited_location =>
    let index_visited_location := a.visited_locations.indexOf visited_location
    let vl1 :=
      if index_visited_location + 1 ≠ a.visited_locations.length then
        let next_visited_location := a.visited_locations.getD (index_visited_location + 1) default
        if index_visited_location = 0 ∧
            next_visited_location.location_point_id = a.chipping_location_id then
          a.visited_locations.erase next_visited_location
        else a.visited_locations
      else a.visited_locations
    Except.ok { a with visited_locations := vl1.erase visited_location }

/-- `Animal.delete_animal_type` (`animal.py`, lines 155-161). -/
def Animal.delete_animal_type (a : Animal) (animal_type_id : Int) :
    Except (AnimalError × Animal) Animal :=
  match a.get_animal_type animal_type_id with
  | Except.error e => Except.error (e, a)
  | Except.ok type_of_this_animal =>
    if a.animal_types.length = 1 ∧ a.animal_types.getD 0 default = type_of_this_animal then
      Except.error
        (AnimalError.animalOnlyHasThisType a.id type_of_this_animal.animal_type_id, a)
    else if type_of_this_animal ∉ a.animal_types then
      Except.error
        (AnimalError.animalNotHaveThisType a.id type_of_this_animal.animal_type_id, a)
    else
      Except.ok { a with animal_types := a.animal_types.erase type_of_this_animal }

/-- Invariant (a) of the spec: the visited-location sequence has no two
adjacent entries with the same location id. -/
def NoAdjacentDup (vl : List AnimalVisitedLocation) : Prop :=
  List.Chain' (fun x y => x.location_point_id ≠ y.location_point_id) vl

def decNoAdjacentDup : (vl : List AnimalVisitedLocation) → Decidable (NoAdjacentDup vl)
  | [] => isTrue List.chain'_nil
  | [x] => isTrue (List.chain'_singleton x)
  | x :: y :: rest =>
    match decNoAdjacentDup (y :: rest) with
    | isTrue h =>
      if hxy : x.location_point_id ≠ y.location_point_id then
        isTrue (List.chain'_cons.mpr ⟨hxy, h⟩)
      else
        isFalse (fun hc => hxy (List.chain'_cons.mp hc).1)
    | isFalse h => isFalse (fun hc => h (List.chain'_cons.mp hc).2)

instance (vl : List AnimalVisitedLocation) : Decidable (NoAdjacentDup vl) :=
  decNoAdjacentDup vl

/-- Invariant (e) of the spec: `death_datetime` is set iff `life_status` is
DEAD. -/
def DeathInv (a : Animal) : Prop :=
  a.death_datetime ≠ none ↔ a.life_status = LifeStatus.DEAD

instance (a : Animal) : Decidable (DeathInv a) :=
  inferInstanceAs (Decidable (a.death_datetime ≠ none ↔ a.life_status = LifeStatus.DEAD))

/-- A concrete aggregate used by witnesses and counterexamples. -/
def mkAnimal (chip : Int) (ls : LifeStatus) (vl : List AnimalVisitedLocation)
    (ts : List TypeOfSpecificAnimal) (dd : Option Nat) : Animal :=
  { id := 10, animal_types := ts, weight := 1, length := 1, height := 1,
    gender := Gender.MALE, life_status := ls, chipping_datetime := 0,
    chipping_location_id := chip, chipper_id := 3, visited_locations := vl,
    death_datetime := dd }

def exTwoVisits : Animal :=
  mkAnimal 5 LifeStatus.ALIVE [⟨some 1, 7, 0⟩, ⟨some 2, 8, 0⟩] [⟨1⟩] none

def exThreeVisits : Animal :=
  mkAnimal 5 LifeStatus.ALIVE [⟨some 1, 7, 0⟩, ⟨some 2, 8, 0⟩, ⟨some 3, 7, 0⟩] [⟨1⟩] none

def exAliveNoDeath : Animal := mkAnimal 5 LifeStatus.ALIVE [] [⟨1⟩] none

def exOnlyType2 : Animal := mkAnimal 5 LifeStatus.ALIVE [] [⟨2⟩] none

def exTypesAB : Animal := mkAnimal 5 LifeStatus.ALIVE [] [⟨1⟩, ⟨2⟩] none

/-- C1 (counterexample): the adjacency invariant is NOT preserved by every
mutating operation.  Changing the first visited location of
`[id 1 ↦ point 7, id 2 ↦ point 8]` to point 8 succeeds and yields the
adjacent duplicate `[8, 8]`; deleting the interior entry of `[7, 8, 7]`
succeeds and yields `[7, 7]`. -/
theorem C1_adjacent_dup_counterexample :
    NoAdjacentDup exTwoVisits.visited_locations ∧
    exTwoVisits.change_visited_location 1 8 =
      Except.ok (mkAnimal 5 LifeStatus.ALIVE [⟨some 1, 8, 0⟩, ⟨some 2, 8, 0⟩] [⟨1⟩] none,
        ⟨some 1, 8, 0⟩) ∧
    ¬ NoAdjacentDup [⟨some 1, 8, 0⟩, ⟨some 2, 8, 0⟩] ∧
    NoAdjacentDup exThreeVisits.visited_locations ∧
    exThreeVisits.delete_visited_location 2 =
      Except.ok (mkAnimal 5 LifeStatus.ALIVE [⟨some 1, 7, 0⟩, ⟨some 3, 7, 0⟩] [⟨1⟩] none) ∧
    ¬ NoAdjacentDup [⟨some 1, 7, 0⟩, ⟨some 3, 7, 0⟩] :=
  ⟨by decide, rfl, by decide, by decide, rfl, by decide⟩

/-- C1 (amended): of the three mutating operations only `add_visited_location`
preserves the no-adjacent-duplicate invariant: if the visited-location list
has no two adjacent entries with equal `location_point_id` and
`add_visited_location` succeeds, the resulting list again has none
(`change_visited_location` of a first or last entry and
`delete_visited_location` of an interior entry can both break it). -/
theorem C1_amended_add_preserves_no_adjacent_dup (a a' : Animal) (p : Int) (now : Nat)
    (hinv : NoAdjacentDup a.visited_locations)
    (h : a.add_visited_location p now = Except.ok a') :
    NoAdjacentDup a'.visited_locations := by
  unfold Animal.add_visited_location at h
  split at h
  · exact absurd h (by simp)
  · split at h
    · exact absurd h (by simp)
    · split at h
      · exact absurd h (by simp)
      · rename_i hlast
        injection h with h
        subst h
        simp only [Animal.update]
        rw [NoAdjacentDup, List.chain'_append]
        refine ⟨hinv, List.chain'_singleton _, ?_⟩
        intro x hx y hy
        simp only [Option.getD, List.head?, Option.mem_def, Option.some.injEq] at hy
        subst hy
        rw [not_and_or] at hlast
        rcases hlast with hnil | hne
        · rw [not_not] at hnil
          simp [hnil] at hx
        · intro hcontra
          apply hne
          have hmem : a.visited_locations ≠ [] := by
            intro hn
            simp [hn] at hx
          rw [List.getLast?_eq_getLast_of_ne_nil hmem, Option.mem_def, Option.some.injEq] at hx
          rw [List.getLastD_eq_getLast?, List.getLast?_eq_getLast_of_ne_nil hmem]
          simpa [AnimalVisitedLocation.create, ← hx] using hcontra

/-- Witness for the amended C1 at a concrete input. -/
theorem C1_amended_witness :
    NoAdjacentDup exTwoVisits.visited_locations ∧
    exTwoVisits.add_visited_location 9 3 =
      Except.ok (mkAnimal 5 LifeStatus.ALIVE
        [⟨some 1, 7, 0⟩, ⟨some 2, 8, 0⟩, ⟨none, 9, 3⟩] [⟨1⟩] none) ∧
    NoAdjacentDup (mkAnimal 5 LifeStatus.ALIVE
        [⟨some 1, 7, 0⟩, ⟨some 2, 8, 0⟩, ⟨none, 9, 3⟩] [⟨1⟩] none).visited_locations :=
  ⟨by decide, rfl,
    C1_amended_add_preserves_no_adjacent_dup exTwoVisits _ 9 3 (by decide) rfl⟩

/-- C8 (counterexample): the death-timestamp invariant is NOT preserved by
every `update` call: an `update` that sets `life_status` to DEAD leaves
`death_datetime` untouched (it is not even a parameter of `update`), so an
alive animal with no death timestamp ends DEAD with `death_datetime = none`. -/
theorem C8_death_inv_counterexample :
    DeathInv exAliveNoDeath ∧
    ¬ DeathInv (exAliveNoDeath.update { life_status := some LifeStatus.DEAD }) := by
  constructor <;> decide

/-- C8 (amended): the invariant "death_datetime is set iff life_status is
DEAD" is preserved by every `set_death_datetime` call, and by every `update`
call whose patch leaves `life_status` unset or supplies the current value; an
`update` that changes `life_status` can break it, since `update` never writes
`death_datetime`. -/
theorem C8_amended_death_inv_preserved (a : Animal) (u : AnimalPatch) (now : Nat)
    (hinv : DeathInv a) :
    DeathInv (a.set_death_datetime now) ∧
    (u.life_status = none ∨ u.life_status = some a.life_status → DeathInv (a.update u)) := by
  constructor
  · unfold Animal.set_death_datetime DeathInv
    split
    · rename_i hd
      simpa using hd
    · exact hinv
  · intro h
    unfold Animal.update DeathInv
    rcases h with h | h <;> simp [h] <;> exact hinv

/-- Witness for the amended C8 at a concrete input. -/
theorem C8_amended_witness :
    DeathInv exAliveNoDeath ∧
    DeathInv (exAliveNoDeath.set_death_datetime 4) ∧
    DeathInv (exAliveNoDeath.update { weight := some 2 }) :=
  ⟨by decide,
    (C8_amended_death_inv_preserved exAliveNoDeath { weight := some 2 } 4 (by decide)).1,
    (C8_amended_death_inv_preserved exAliveNoDeath { weight := some 2 } 4 (by decide)).2
      (Or.inl rfl)⟩

theorem change_animal_type_both_absent (a : Animal) (old_t new_t : Int)
    (hold : a.check_exist_animal_type old_t = false)
    (hnew : a.check_exist_animal_type new_t = false) :
    a.change_animal_type old_t new_t =
      Except.error (AnimalError.animalNotHaveThisType a.id old_t, a) := by
  have hfind : a.animal_types.find? (fun t => t.animal_type_id == old_t) = none := by
    rw [List.find?_eq_none]
    intro x hx
    have := List.any_eq_false.mp hold x hx
    simpa using this
  unfold Animal.change_animal_type
  rw [Animal.get_animal_type, hfind]
  simp [hold, hnew]

/-- C9: when the old type id is absent and the new type id is also absent
(so neither of the two earlier checks fires), `change_animal_type` raises
`AnimalNotHaveThisType` — a failure mode the spec does not list for
`changeType`. -/
theorem C9_change_animal_type_old_absent (a : Animal) (old_t new_t : Int)
    (hold : a.check_exist_animal_type old_t = false)
    (hnew : a.check_exist_animal_type new_t = false) :
    a.change_animal_type old_t new_t =
      Except.error (AnimalError.animalNotHaveThisType a.id old_t, a) :=
  change_animal_type_both_absent a old_t new_t hold hnew

/-- Witness for C9 at a concrete input. -/
theorem C9_witness :
    exOnlyType2.check_exist_animal_type 1 = false ∧
    exOnlyType2.check_exist_animal_type 3 = false ∧
    exOnlyType2.change_animal_type 1 3 =
      Except.error (AnimalError.animalNotHaveThisType 10 1, exOnlyType2) :=
  ⟨rfl, rfl, C9_change_animal_type_old_absent exOnlyType2 1 3 rfl rfl⟩

theorem add_animal_type_err_state {a : Animal} {tid : Int} {e : AnimalError} {s : Animal}
    (h : a.add_animal_type tid = Except.error (e, s)) : s = a := by
  unfold Animal.add_animal_type at h
  try dsimp only at h
  repeat' split at h
  all_goals simp_all

theorem add_visited_location_err_state {a : Animal} {p : Int} {now : Nat} {e : AnimalError}
    {s : Animal} (h : a.add_visited_location p now = Except.error (e, s)) : s = a := by
  unfold Animal.add_visited_location at h
  try dsimp only at h
  repeat' split at h
  all_goals simp_all

theorem change_animal_type_err_state {a : Animal} {old_t new_t : Int} {e : AnimalError}
    {s : Animal} (h : a.change_animal_type old_t new_t = Except.error (e, s)) : s = a := by
  unfold Animal.change_animal_type at h
  try dsimp only at h
  repeat' split at h
  all_goals simp_all

theorem change_visited_location_err_state {a : Animal} {vid p : Int} {e : AnimalError}
    {s : Animal} (h : a.change_visited_location vid p = Except.error (e, s)) : s = a := by
  unfold Animal.change_visited_location at h
  try dsimp only at h
  repeat' split at h
  all_goals simp_all

theorem delete_visited_location_err_state {a : Animal} {vid : Int} {e : AnimalError}
    {s : Animal} (h : a.delete_visited_location vid = Except.error (e, s)) : s = a := by
  unfold Animal.delete_visited_location at h
  try dsimp only at h
  repeat' split at h
  all_goals simp_all

theorem delete_animal_type_err_state {a : Animal} {tid : Int} {e : AnimalError}
    {s : Animal} (h : a.delete_animal_type tid = Except.error (e, s)) : s = a := by
  unfold Animal.delete_animal_type at h
  try dsimp only at h
  repeat' split at h
  all_goals simp_all

/-- C7: every mutating operation of the aggregate is all-or-nothing: whenever
an operation returns a domain error, the aggregate state it leaves behind
(the `Animal` component carried by the error, i.e. the state at the moment of
the raise) is exactly the state before the call. -/
theorem C7_operations_all_or_nothing (a : Animal) (tid old_t new_t vid p : Int) (now : Nat)
    (e : AnimalError) (s : Animal) :
    (a.add_animal_type tid = Except.error (e, s) → s = a) ∧
    (a.add_visited_location p now = Except.error (e, s) → s = a) ∧
    (a.change_animal_type old_t new_t = Except.error (e, s) → s = a) ∧
    (a.change_visited_location vid p = Except.error (e, s) → s = a) ∧
    (a.delete_visited_location vid = Except.error (e, s) → s = a) ∧
    (a.delete_animal_type tid = Except.error (e, s) → s = a) :=
  ⟨add_animal_type_err_state, add_visited_location_err_state, change_animal_type_err_state,
    change_visited_location_err_state, delete_visited_location_err_state,
    delete_animal_type_err_state⟩

/-- Witness for C7: a dead animal rejects a new visited location and the
state carried by the error is the original aggregate. -/
theorem C7_witness :
    (mkAnimal 5 LifeStatus.DEAD [] [⟨1⟩] (some 2)).add_visited_location 7 3 =
      Except.error (AnimalError.animalIsDead 10, mkAnimal 5 LifeStatus.DEAD [] [⟨1⟩] (some 2)) ∧
    mkAnimal 5 LifeStatus.DEAD [] [⟨1⟩] (some 2) = mkAnimal 5 LifeStatus.DEAD [] [⟨1⟩] (some 2) :=
  ⟨rfl,
    (C7_operations_all_or_nothing (mkAnimal 5 LifeStatus.DEAD [] [⟨1⟩] (some 2)) 1 1 2 1 7 3
      (AnimalError.animalIsDead 10) (mkAnimal 5 LifeStatus.DEAD [] [⟨1⟩] (some 2))).2.1 rfl⟩

/-- C2: `add_visited_location` checks, in order: dead animal, chip-in
location, repetition of the last visited point; otherwise it appends exactly
one new entry for the requested point, timestamped now, at the end of the
list, leaving all existing entries unchanged. -/
theorem C2_add_visited_location_characterization (a : Animal) (p : Int) (now : Nat) :
    (a.life_status = LifeStatus.DEAD →
      a.add_visited_location p now = Except.error (AnimalError.animalIsDead a.id, a)) ∧
    (a.life_status ≠ LifeStatus.DEAD → a.chipping_location_id = p →
      a.add_visited_location p now =
        Except.error (AnimalError.locationPointEqualToChippingLocation a.id p, a)) ∧
    (a.life_status ≠ LifeStatus.DEAD → a.chipping_location_id ≠ p →
      a.visited_locations ≠ [] →
      (a.visited_locations.getLastD default).location_point_id = p →
      a.add_visited_location p now =
        Except.error (AnimalError.animalNowInThisPoint a.id p, a)) ∧
    (a.life_status ≠ LifeStatus.DEAD → a.chipping_location_id ≠ p →
      (a.visited_locations = [] ∨
        (a.visited_locations.getLastD default).location_point_id ≠ p) →
      a.add_visited_location p now =
        Except.ok { a with visited_locations := a.visited_locations ++ [⟨none, p, now⟩] }) := by
  refine ⟨?_, ?_, ?_, ?_⟩
  · intro h1
    unfold Animal.add_visited_location
    rw [if_pos h1]
  · intro h1 h2
    unfold Animal.add_visited_location
    rw [if_neg h1, if_pos h2]
  · intro h1 h2 h3 h4
    unfold Animal.add_visited_location
    rw [if_neg h1, if_neg h2, if_pos ⟨h3, h4⟩]
  · intro h1 h2 h3
    unfold Animal.add_visited_location
    rw [if_neg h1, if_neg h2,
      if_neg (fun hc => by rcases h3 with h | h; exacts [hc.1 h, h hc.2])]
    simp [Animal.update, AnimalVisitedLocation.create]

/-- Witness for C2 at a concrete input: the success case appends one entry. -/
theorem C2_witness :
    exTwoVisits.life_status ≠ LifeStatus.DEAD ∧
    exTwoVisits.chipping_location_id ≠ 9 ∧
    exTwoVisits.add_visited_location 9 3 =
      Except.ok { exTwoVisits with
        visited_locations := exTwoVisits.visited_locations ++ [⟨none, 9, 3⟩] } :=
  ⟨by decide, by decide,
    (C2_add_visited_location_characterization exTwoVisits 9 3).2.2.2 (by decide) (by decide)
      (Or.inr (by decide))⟩

/-- C6: `delete_animal_type` fails with `AnimalNotHaveThisType` when no tag
carries the requested type id, fails with `AnimalOnlyHasThisType` when the
matching tag is the sole remaining tag, and otherwise removes that tag; with
at least two tags present beforehand the tag count drops by exactly one. -/
theorem C6_delete_animal_type_characterization (a : Animal) (tid : Int) :
    ((∀ t ∈ a.animal_types, t.animal_type_id ≠ tid) →
      a.delete_animal_type tid =
        Except.error (AnimalError.animalNotHaveThisType a.id tid, a)) ∧
    (∀ t, a.get_animal_type tid = Except.ok t →
      (a.animal_types.length = 1 →
        a.delete_animal_type tid =
          Except.error (AnimalError.animalOnlyHasThisType a.id t.animal_type_id, a)) ∧
      (a.animal_types.length ≠ 1 →
        a.delete_animal_type tid =
          Except.ok { a with animal_types := a.animal_types.erase t} ∧
        (2 ≤ a.animal_types.length →
          (a.animal_types.erase t).length = a.animal_types.length - 1))) := by
  constructor
  · intro h
    have hfind : a.animal_types.find? (fun t => t.animal_type_id == tid) = none := by
      rw [List.find?_eq_none]
      intro x hx
      simpa using h x hx
    unfold Animal.delete_animal_type
    rw [Animal.get_animal_type, hfind]
  · intro t ht
    have hfind : a.animal_types.find? (fun u => u.animal_type_id == tid) = some t := by
      unfold Animal.get_animal_type at ht
      split at ht <;> simp_all
    have hmem : t ∈ a.animal_types := List.mem_of_find?_eq_some hfind
    constructor
    · intro hlen
      obtain ⟨x, hx⟩ := List.length_eq_one.mp hlen
      have htx : t = x := by
        rw [hx] at hmem
        simpa using hmem
      unfold Animal.delete_animal_type
      rw [Animal.get_animal_type, hfind]
      dsimp only
      rw [if_pos ⟨hlen, by rw [hx, htx]; rfl⟩]
    · intro hlen
      constructor
      · unfold Animal.delete_animal_type
        rw [Animal.get_animal_type, hfind]
        dsimp only
        rw [if_neg (fun hc => hlen hc.1), if_neg (fun hc => hc hmem)]
      · intro _
        have := List.length_erase_add_one hmem
        omega

/-- Witness for C6 at a concrete input: with two tags present, deleting one
succeeds and the count drops from 2 to 1. -/
theorem C6_witness :
    exTypesAB.get_animal_type 1 = Except.ok ⟨1⟩ ∧
    exTypesAB.delete_animal_type 1 =
      Except.ok { exTypesAB with animal_types := exTypesAB.animal_types.erase ⟨1⟩ } ∧
    (exTypesAB.animal_types.erase (⟨1⟩ : TypeOfSpecificAnimal)).length =
      exTypesAB.animal_types.length - 1 :=
  ⟨rfl,
    ((C6_delete_animal_type_characterization exTypesAB 1).2 ⟨1⟩ rfl).2 (by decide) |>.1,
    ((C6_delete_animal_type_characterization exTypesAB 1).2 ⟨1⟩ rfl).2 (by decide) |>.2
      (by decide)⟩

/-- C5 (counterexample): the claimed characterization of `change_animal_type`
fails in two places.  With tags `{1}`, `change_animal_type 1 1` raises
`AnimalAlreadyHaveThisTypes` although the old and the new type id do not
"exist as distinct tags" (they resolve to the same single tag, `1 ≠ 1` being
false); and with tags `{2}`, `change_animal_type 1 3` raises
`AnimalNotHaveThisType` instead of performing the claimed "otherwise"
mutation. -/
theorem C5_change_animal_type_counterexample :
    exAliveNoDeath.change_animal_type 1 1 =
      Except.error (AnimalError.animalAlreadyHaveThisTypes 10 1 1, exAliveNoDeath) ∧
    ¬ ((1 : Int) ≠ (1 : Int)) ∧
    exOnlyType2.change_animal_type 1 3 =
      Except.error (AnimalError.animalNotHaveThisType 10 1, exOnlyType2) :=
  ⟨rfl, by decide, rfl⟩

/-- C5 (amended): `change_animal_type(old, new)` fails with
`AnimalAlreadyHaveThisTypes` exactly when both the old and the new type id
already exist on the animal (including the degenerate case `old = new`, where
they are the same tag rather than distinct ones); fails with
`AnimalAlreadyHaveThisType` when only the new type already exists; fails with
`AnimalNotHaveThisType` when neither exists; and otherwise (old present, new
absent) mutates the tag at the old tag's position in place to the new type
id, preserving the order of the tag sequence. -/
theorem C5_amended_change_animal_type (a : Animal) (old_t new_t : Int) :
    (a.check_exist_animal_type old_t = true → a.check_exist_animal_type new_t = true →
      a.change_animal_type old_t new_t =
        Except.error (AnimalError.animalAlreadyHaveThisTypes a.id old_t new_t, a)) ∧
    (a.check_exist_animal_type old_t = false → a.check_exist_animal_type new_t = true →
      a.change_animal_type old_t new_t =
        Except.error (AnimalError.animalAlreadyHaveThisType a.id new_t, a)) ∧
    (a.check_exist_animal_type old_t = false → a.check_exist_animal_type new_t = false →
      a.change_animal_type old_t new_t =
        Except.error (AnimalError.animalNotHaveThisType a.id old_t, a)) ∧
    (∀ t, a.check_exist_animal_type new_t = false →
      a.get_animal_type old_t = Except.ok t →
      a.change_animal_type old_t new_t =
        Except.ok { a with animal_types :=
          a.animal_types.set (a.animal_types.indexOf t) ⟨new_t⟩ } ∧
      a.animal_types.indexOf t < a.animal_types.length ∧
      (a.animal_types.set (a.animal_types.indexOf t) ⟨new_t⟩).length =
        a.animal_types.length) := by
  refine ⟨?_, ?_, change_animal_type_both_absent a old_t new_t, ?_⟩
  · intro h1 h2
    unfold Animal.change_animal_type
    rw [if_pos ⟨h1, h2⟩]
  · intro h1 h2
    unfold Animal.change_animal_type
    rw [if_neg (fun hc => by rw [h1] at hc; exact Bool.false_ne_true hc.1), if_pos h2]
  · intro t hnew ht
    have hfind : a.animal_types.find? (fun u => u.animal_type_id == old_t) = some t := by
      unfold Animal.get_animal_type at ht
      split at ht <;> simp_all
    have hmem : t ∈ a.animal_types := List.mem_of_find?_eq_some hfind
    refine ⟨?_, List.indexOf_lt_length.mpr hmem, by simp⟩
    unfold Animal.change_animal_type
    rw [if_neg (fun hc => by rw [hnew] at hc; exact Bool.false_ne_true hc.2),
      if_neg (by rw [hnew]; exact Bool.false_ne_true)]
    rw [Animal.get_animal_type, hfind]

/-- Witness for the amended C5 at the spec's own scenario: tags `{1, 2}`,
changing type 1 to the absent type 3 yields `{3, 2}` with 3 occupying the
original position of 1. -/
theorem C5_amended_witness :
    exTypesAB.check_exist_animal_type 3 = false ∧
    exTypesAB.get_animal_type 1 = Except.ok ⟨1⟩ ∧
    exTypesAB.change_animal_type 1 3 =
      Except.ok (mkAnimal 5 LifeStatus.ALIVE [] [⟨3⟩, ⟨2⟩] none) :=
  ⟨rfl, rfl,
    ((C5_amended_change_animal_type exTypesAB 1 3).2.2.2 ⟨1⟩ rfl rfl).1⟩

def exChipReturn : Animal :=
  mkAnimal 5 LifeStatus.ALIVE [⟨some 1, 7, 0⟩, ⟨some 2, 5, 0⟩] [⟨1⟩] none

/-- C4: `delete_visited_location` fails with
`AnimalHasNoCurrentVisitedLocation` when no entry has the requested id; when
the target is the first entry, is not the last, and the entry immediately
following it sits at the chip-in location, both the target and that
following entry are removed; otherwise only the target entry is removed. -/
theorem C4_delete_visited_location_characterization (a : Animal) (vid : Int) :
    ((∀ l ∈ a.visited_locations, l.id ≠ some vid) →
      a.delete_visited_location vid =
        Except.error (AnimalError.animalHasNoCurrentVisitedLocation a.id vid, a)) ∧
    (∀ x, a.get_visited_location vid = Except.ok x →
      (a.visited_locations.indexOf x = 0 →
        a.visited_locations.indexOf x + 1 ≠ a.visited_locations.length →
        (a.visited_locations.getD (a.visited_locations.indexOf x + 1)
            default).location_point_id = a.chipping_location_id →
        a.delete_visited_location vid =
          Except.ok { a with visited_locations :=
            (a.visited_locations.erase
              (a.visited_locations.getD (a.visited_locations.indexOf x + 1) default)).erase x }) ∧
      (¬ (a.visited_locations.indexOf x = 0 ∧
          a.visited_locations.indexOf x + 1 ≠ a.visited_locations.length ∧
          (a.visited_locations.getD (a.visited_locations.indexOf x + 1)
              default).location_point_id = a.chipping_location_id) →
        a.delete_visited_location vid =
          Except.ok { a with visited_locations := a.visited_locations.erase x })) := by
  constructor
  · intro h
    have hfind :
        a.visited_locations.find? (fun l => l.id == some vid) = none := by
      rw [List.find?_eq_none]
      intro l hl
      simpa using h l hl
    unfold Animal.delete_visited_location
    rw [Animal.get_visited_location, hfind]
  · intro x hx
    have hfind :
        a.visited_locations.find? (fun l => l.id == some vid) = some x := by
      unfold Animal.get_visited_location at hx
      split at hx <;> simp_all
    constructor
    · intro hi0 hlen hchip
      unfold Animal.delete_visited_location
      rw [Animal.get_visited_location, hfind]
      dsimp only
      rw [if_pos hlen, if_pos ⟨hi0, hchip⟩]
    · intro hn
      unfold Animal.delete_visited_location
      rw [Animal.get_visited_location, hfind]
      dsimp only
      by_cases hlast : a.visited_locations.indexOf x + 1 = a.visited_locations.length
      · rw [if_neg (fun hc => hc hlast)]
      · rw [if_pos hlast, if_neg (fun hc => hn ⟨hc.1, hlast, hc.2⟩)]

/-- Witness for C4 at the spec's own scenario: chipped at point 5, visits
point 7 (id 1) then point 5 (id 2); deleting entry 1 also removes entry 2,
leaving the visited-location list empty. -/
theorem C4_witness :
    exChipReturn.get_visited_location 1 = Except.ok ⟨some 1, 7, 0⟩ ∧
    exChipReturn.delete_visited_location 1 =
      Except.ok (mkAnimal 5 LifeStatus.ALIVE [] [⟨1⟩] none) :=
  ⟨rfl,
    ((C4_delete_visited_location_characterization exChipReturn 1).2 ⟨some 1, 7, 0⟩ rfl).1
      rfl (by decide) rfl⟩

theorem getD_indexOf_eq {l : List AnimalVisitedLocation} {x : AnimalVisitedLocation}
    (h : x ∈ l) : l.getD (l.indexOf x) default = x := by
  rw [List.getD_eq_getElem _ _ (List.indexOf_lt_length.mpr h)]
  exact List.getElem_indexOf (List.indexOf_lt_length.mpr h)

/-- C3: `change_visited_location` fails with
`AnimalHasNoCurrentVisitedLocation` when no entry has the requested id; fails
with `UpdateToSameLocationPoint` when the new point equals the entry's
current point; for an interior entry fails with
`NextOfPreviousEqualThisLocation` when the new point equals either immediate
neighbor's point; for a first entry fails with
`UpdatedFirstPointToChippingPoint` when the new point equals the chip-in
location; otherwise it rewrites the entry's location point id in place (same
position, same list length) and returns the updated entry. -/
theorem C3_change_visited_location_characterization (a : Animal) (vid p : Int) :
    ((∀ l ∈ a.visited_locations, l.id ≠ some vid) →
      a.change_visited_location vid p =
        Except.error (AnimalError.animalHasNoCurrentVisitedLocation a.id vid, a)) ∧
    (∀ x, a.get_visited_location vid = Except.ok x →
      x.id = some vid ∧
      x ∈ a.visited_locations ∧
      a.visited_locations.getD (a.visited_locations.indexOf x) default = x ∧
      (x.location_point_id = p →
        a.change_visited_location vid p =
          Except.error (AnimalError.updateToSameLocationPoint a.id x.location_point_id, a)) ∧
      (x.location_point_id ≠ p →
        a.visited_locations.indexOf x ≠ 0 →
        a.visited_locations.indexOf x ≠ a.visited_locations.length - 1 →
        ((a.visited_locations.getD (a.visited_locations.indexOf x + 1)
            default).location_point_id = p ∨
         (a.visited_locations.getD (a.visited_locations.indexOf x - 1)
            default).location_point_id = p) →
        a.change_visited_location vid p =
          Except.error
            (AnimalError.nextOfPreviousEqualThisLocation a.id x.location_point_id, a)) ∧
      (x.location_point_id ≠ p →
        a.visited_locations.indexOf x = 0 → p = a.chipping_location_id →
        a.change_visited_location vid p =
          Except.error
            (AnimalError.updatedFirstPointToChippingPoint a.id x.location_point_id, a)) ∧
      (x.location_point_id ≠ p →
        (a.visited_locations.indexOf x ≠ 0 ∧
            a.visited_locations.indexOf x ≠ a.visited_locations.length - 1 →
          (a.visited_locations.getD (a.visited_locations.indexOf x + 1)
              default).location_point_id ≠ p ∧
          (a.visited_locations.getD (a.visited_locations.indexOf x - 1)
              default).location_point_id ≠ p) →
        (a.visited_locations.indexOf x = 0 → p ≠ a.chipping_location_id) →
        a.change_visited_location vid p =
          Except.ok ({ a with visited_locations :=
              (a.visited_locations.set (a.visited_locations.indexOf x)
                { x with location_point_id := p }) },
            { x with location_point_id := p }) ∧
        (a.visited_locations.set (a.visited_locations.indexOf x)
            { x with location_point_id := p }).length = a.visited_locations.length)) := by
  constructor
  · intro h
    have hfind :
        a.visited_locations.find? (fun l => l.id == some vid) = none := by
      rw [List.find?_eq_none]
      intro l hl
      simpa using h l hl
    unfold Animal.change_visited_location
    rw [Animal.get_visited_location, hfind]
  · intro x hx
    have hfind :
        a.visited_locations.find? (fun l => l.id == some vid) = some x := by
      unfold Animal.get_visited_location at hx
      split at hx <;> simp_all
    have hid : x.id = some vid := by
      simpa using List.find?_some hfind
    have hmem : x ∈ a.visited_locations := List.mem_of_find?_eq_some hfind
    have hgetd : a.visited_locations.getD (a.visited_locations.indexOf x) default = x :=
      getD_indexOf_eq hmem
    refine ⟨hid, hmem, hgetd, ?_, ?_, ?_, ?_⟩
    · intro hsame
      unfold Animal.change_visited_location
      rw [Animal.get_visited_location, hfind]
      dsimp only
      rw [if_pos hsame]
    · intro hsame hi0 hilast hnb
      unfold Animal.change_visited_location
      rw [Animal.get_visited_location, hfind]
      dsimp only
      rw [if_neg hsame, if_pos ⟨hi0, hilast⟩]
      by_cases hnext :
          (a.visited_locations.getD (a.visited_locations.indexOf x + 1)
            default).location_point_id = p
      · rw [if_pos hnext]
      · rcases hnb with h | h
        · exact absurd h hnext
        · rw [if_neg hnext, if_pos h]
    · intro hsame hi0 hp
      unfold Animal.change_visited_location
      rw [Animal.get_visited_location, hfind]
      dsimp only
      rw [if_neg hsame, if_neg (fun hc => hc.1 hi0), if_pos ⟨hi0, hp⟩]
    · intro hsame hguard1 hguard2
      refine ⟨?_, by simp⟩
      unfold Animal.change_visited_location
      rw [Animal.get_visited_location, hfind]
      dsimp only
      by_cases hint : a.visited_locations.indexOf x ≠ 0 ∧
          a.visited_locations.indexOf x ≠ a.visited_locations.length - 1
      · obtain ⟨hnext, hprev⟩ := hguard1 hint
        rw [if_neg hsame, if_pos hint, if_neg hnext, if_neg hprev, hgetd]
      · rw [if_neg hsame, if_neg hint,
          if_neg (fun hc => hguard2 hc.1 hc.2), hgetd]

/-- Witness for C3 at a concrete input: changing the interior entry (id 2,
point 8) of a three-entry history to the fresh point 9 succeeds in place. -/
theorem C3_witness :
    exThreeVisits.get_visited_location 2 = Except.ok ⟨some 2, 8, 0⟩ ∧
    exThreeVisits.change_visited_location 2 9 =
      Except.ok (mkAnimal 5 LifeStatus.ALIVE
        [⟨some 1, 7, 0⟩, ⟨some 2, 9, 0⟩, ⟨some 3, 7, 0⟩] [⟨1⟩] none, ⟨some 2, 9, 0⟩) :=
  ⟨rfl,
    (((C3_change_visited_location_characterization exThreeVisits 2 9).2
      ⟨some 2, 8, 0⟩ rfl).2.2.2.2.2.2 (by decide)
      (fun _ => ⟨by decide, by decide⟩) (fun h0 => absurd h0 (by decide))).1⟩

/-- Flipping `life_status` to ALIVE while keeping every other field: used to
state that an operation ignores the life status. -/
def Animal.set_alive (a : Animal) : Animal := { a with life_status := LifeStatus.ALIVE }

theorem get_visited_location_set_alive (a : Animal) (vid : Int) :
    a.set_alive.get_visited_location vid = a.get_visited_location vid := rfl

theorem get_visited_location_err {a : Animal} {vid : Int} {e : AnimalError}
    (h : a.get_visited_location vid = Except.error e) :
    e = AnimalError.animalHasNoCurrentVisitedLocation a.id vid := by
  unfold Animal.get_visited_location at h
  split at h <;> simp_all

def exDeadVisits : Animal :=
  mkAnimal 5 LifeStatus.DEAD [⟨some 1, 7, 0⟩, ⟨some 2, 8, 0⟩] [⟨1⟩] (some 1)

/-- C10: the dead-animal guard applies only to `add_visited_location`: on a
dead animal, `change_visited_location` and `delete_visited_location` never
produce `AnimalIsDead`, and each behaves exactly as on the identical animal
whose `life_status` is ALIVE (same error kind or same new visited-location
list and returned entry — formally, the operations commute with flipping
`life_status` to ALIVE). -/
theorem C10_dead_guard_only_for_add (a : Animal) (vid p : Int)
    (hdead : a.life_status = LifeStatus.DEAD) :
    (∀ i s, a.change_visited_location vid p ≠
      Except.error (AnimalError.animalIsDead i, s)) ∧
    (∀ i s, a.delete_visited_location vid ≠
      Except.error (AnimalError.animalIsDead i, s)) ∧
    a.set_alive.change_visited_location vid p =
      ((a.change_visited_location vid p).map
        (fun r => (r.1.set_alive, r.2))).mapError (fun es => (es.1, es.2.set_alive)) ∧
    a.set_alive.delete_visited_location vid =
      ((a.delete_visited_location vid).map Animal.set_alive).mapError
        (fun es => (es.1, es.2.set_alive)) := by
  refine ⟨?_, ?_, ?_, ?_⟩
  · intro i s
    unfold Animal.change_visited_location
    cases hget : a.get_visited_location vid with
    | error e => rw [get_visited_location_err hget]; simp
    | ok x =>
      dsimp only
      repeat' split
      all_goals simp
  · intro i s
    unfold Animal.delete_visited_location
    cases hget : a.get_visited_location vid with
    | error e => rw [get_visited_location_err hget]; simp
    | ok x => simp
  · unfold Animal.change_visited_location
    rw [get_visited_location_set_alive]
    cases hget : a.get_visited_location vid with
    | error e => rfl
    | ok x =>
      dsimp only [Animal.set_alive]
      split
      · rfl
      · split
        · split
          · rfl
          · split
            · rfl
            · rfl
        · split
          · rfl
          · rfl
  · unfold Animal.delete_visited_location
    rw [get_visited_location_set_alive]
    cases hget : a.get_visited_location vid with
    | error e => rfl
    | ok x =>
      dsimp only [Animal.set_alive]
      split
      · split
        · rfl
        · rfl
      · rfl

/-- Witness for C10 at a concrete input: a dead animal with history
`[7, 8]`. -/
theorem C10_witness :
    exDeadVisits.life_status = LifeStatus.DEAD ∧
    exDeadVisits.set_alive.change_visited_location 1 9 =
      ((exDeadVisits.change_visited_location 1 9).map
        (fun r => (r.1.set_alive, r.2))).mapError (fun es => (es.1, es.2.set_alive)) ∧
    exDeadVisits.set_alive.delete_visited_location 1 =
      ((exDeadVisits.delete_visited_location 1).map Animal.set_alive).mapError
        (fun es => (es.1, es.2.set_alive)) :=
  ⟨rfl, (C10_dead_guard_only_for_add exDeadVisits 1 9 rfl).2.2.1,
    (C10_dead_guard_only_for_add exDeadVisits 1 9 rfl).2.2.2⟩

end AnimalRecords
